import Mathlib

/-!
Verification development for the `api-client-interceptors` package.

Two source modules are embedded:

* the error handler (`processStoreError` and its helper predicates), a pure
  total classifier mapping an arbitrary JavaScript failure value to a
  `ProcessedError` record;
* the authentication interceptor (`createAuthInterceptor`,
  `createAuthInterceptorLegacy`), whose `onRejected` handler guards a
  shared module-level flag `isCheckingAuth`, dispatches an auth-check
  verification, and on confirmed invalidity dispatches a logout and a
  navigation to the login path.

JavaScript values are modelled by the inductive `JsValue`; the outcomes of
the host-supplied dispatch function (a Redux store) are modelled
explicitly by `CheckAuthOutcome`, and the browser `window` global by an
`Option String` holding `window.location.pathname` when a window exists.
-/

namespace ErrorHandler

/-- A JavaScript runtime value, as far as `processStoreError` inspects it:
`null`, `undefined`, booleans, numbers, strings and plain objects (a list
of named fields; lookup takes the first binding). -/
inductive JsValue where
  | null
  | undefined
  | bool (b : Bool)
  | num (n : Int)
  | str (s : String)
  | obj (fields : List (String × JsValue))

/-- JavaScript truthiness of a value (`NaN` is not modelled). -/
def JsValue.truthy : JsValue → Bool
  | .null => false
  | .undefined => false
  | .bool b => b
  | .num n => n != 0
  | .str s => s != ""
  | .obj _ => true

/-- JavaScript `a || b`: `a` when truthy, else `b`. -/
def jsOr (a b : JsValue) : JsValue :=
  if a.truthy then a else b

/-- Property access `v?.name` through optional chaining: on an object the
first binding of the field (or `undefined` when absent); on every
non-object value, `undefined`. -/
def JsValue.getProp (v : JsValue) (name : String) : JsValue :=
  match v with
  | .obj fields =>
    match fields.lookup name with
    | some w => w
    | none => .undefined
  | _ => .undefined

/-- `String.prototype.trim`: whitespace stripped from both ends. -/
def jsTrim (s : String) : String :=
  ⟨((s.toList.dropWhile Char.isWhitespace).reverse.dropWhile
      Char.isWhitespace).reverse⟩

/-- An HTTP response attached to an `AxiosError`: `status` and `data`
(the parsed response body). -/
structure AxiosResponseData where
  status : Int
  data : JsValue

/-- The input of `processStoreError` (`unknown` in the source): an
`AxiosError` instance (message plus optional response), any other `Error`
instance (message), or a plain non-Error value. The constructor order
mirrors the `instanceof AxiosError` / `instanceof Error` branch order. -/
inductive JsInput where
  | axiosError (message : String) (response : Option AxiosResponseData)
  | jsError (message : String)
  | value (v : JsValue)

/-- The normalized error record returned by `processStoreError`. The
`message` field is kept as a `JsValue` because the source assigns
`error.response?.data?.message` to it without a type check. -/
structure ProcessedError where
  statusCode : Int
  message : JsValue
  data : JsValue
  isAxiosError : Bool
  originalError : JsInput

/-- The fallback message installed before any branch runs. -/
def genericMessage : JsValue := .str "An unexpected error occurred. Please try again."

/-- The fallback used in the `AxiosError` branch when neither the response
body's message nor the error's own message is truthy. -/
def serverCommMessage : JsValue := .str "A server communication error occurred."

/-- Embedding of `processStoreError`. Each branch mirrors the source:
`AxiosError` (status `error.response?.status || 0`, message
`error.response?.data?.message || error.message || fallback`, data
`error.response?.data`); plain `Error` (message copied verbatim); plain
string (used only when its trim is non-empty); plain object (opportunistic
extraction of `message` when a non-blank string, `statusCode` when a
number, `data` when present); every other value keeps the defaults. -/
def processStoreError (error : JsInput) : ProcessedError :=
  match error with
  | .axiosError msg response =>
    let statusCode : Int :=
      match response with
      | some r => if (JsValue.num r.status).truthy then r.status else 0
      | none => 0
    let message : JsValue :=
      jsOr (jsOr (match response with
                  | some r => r.data.getProp "message"
                  | none => .undefined)
                 (.str msg))
           serverCommMessage
    let errorData : JsValue :=
      match response with
      | some r => r.data
      | none => .undefined
    ⟨statusCode, message, errorData, true, error⟩
  | .jsError msg =>
    ⟨0, .str msg, .undefined, false, error⟩
  | .value v =>
    match v with
    | .str s =>
      if jsTrim s != "" then ⟨0, .str s, .undefined, false, error⟩
      else ⟨0, genericMessage, .undefined, false, error⟩
    | .obj fields =>
      let message : JsValue :=
        match fields.lookup "message" with
        | some (.str s) => if jsTrim s != "" then .str s else genericMessage
        | _ => genericMessage
      let statusCode : Int :=
        match fields.lookup "statusCode" with
        | some (.num n) => n
        | _ => 0
      let errorData : JsValue :=
        match fields.lookup "data" with
        | some w => w
        | none => .undefined
      ⟨statusCode, message, errorData, false, error⟩
    | _ =>
      ⟨0, genericMessage, .undefined, false, error⟩

end ErrorHandler

namespace AuthInterceptor

/-- The response attached to a failed exchange, as far as the interceptor
inspects it: only `status`. -/
structure AxiosResponse where
  status : Int
deriving DecidableEq

/-- The request configuration attached to an error: only the optional
`url` is inspected. -/
structure RequestConfig where
  url : Option String
deriving DecidableEq

/-- A failed exchange handed to `onRejected`. The error object's identity
is its fields here; `onRejected` always re-signals the very object it
received. -/
structure AxiosError where
  response : Option AxiosResponse
  config : Option RequestConfig
deriving DecidableEq

/-- The configuration accepted by `createAuthInterceptor`. The `store`,
`checkAuthAction` and `logoutAction` fields are host collaborators whose
behaviour is supplied per run by `Env`; the two string options keep their
source defaults applied at destructuring time. -/
structure AuthInterceptorConfig where
  authCheckPattern : Option String
  loginPath : Option String
deriving DecidableEq

/-- `authCheckPattern = '/me/check'` destructuring default. -/
def AuthInterceptorConfig.patternValue (c : AuthInterceptorConfig) : String :=
  c.authCheckPattern.getD "/me/check"

/-- `loginPath = '/login'` destructuring default. -/
def AuthInterceptorConfig.loginPathValue (c : AuthInterceptorConfig) : String :=
  c.loginPath.getD "/login"

/-- `pat` occurs as a contiguous run inside `l`. -/
def charsInclude (pat : List Char) : List Char → Bool
  | [] => pat.isEmpty
  | c :: rest => pat.isPrefixOf (c :: rest) || charsInclude pat rest

/-- JavaScript `String.prototype.includes`: substring containment. -/
def strIncludes (s pat : String) : Bool :=
  charsInclude pat.toList s.toList

/-- `error.config?.url?.includes(pattern)` with optional chaining:
`false` when the config or its url is absent. -/
def urlMatchesPattern (cfg : Option RequestConfig) (pattern : String) : Bool :=
  match cfg with
  | none => false
  | some c =>
    match c.url with
    | none => false
    | some u => strIncludes u pattern

/-- The module-level shared state of the interceptor module: the single
`let isCheckingAuth = false` flag every interceptor instance closes
over. -/
structure ModuleState where
  isCheckingAuth : Bool
deriving DecidableEq

/-- Nested payload field `payload.error.statusCode` of a rejected
auth-check action; each level may be absent. -/
structure PayloadErrorInfo where
  statusCode : Option Int
deriving DecidableEq

/-- The `payload` carried by a rejected auth-check action, read as
`{ error?: { statusCode?: number } }`. -/
structure RejectedPayload where
  error : Option PayloadErrorInfo
deriving DecidableEq

/-- Outcome of `await store.dispatch(checkAuthAction())`, as the source
discriminates it: matched by `checkAuthAction.fulfilled`, matched by
`checkAuthAction.rejected` with an optional payload, matched by neither,
or the awaited dispatch throwing. -/
inductive CheckAuthOutcome where
  | fulfilled
  | rejectedWith (payload : Option RejectedPayload)
  | unmatched
  | throws
deriving DecidableEq

/-- One run's environment: whether a browser `window` exists (and its
`location.pathname`), the outcome the store produces for the auth-check
dispatch, and whether the awaited logout dispatch throws. -/
structure Env where
  window : Option String
  checkAuth : CheckAuthOutcome
  logoutThrows : Bool
deriving DecidableEq

/-- Result of a settled promise: resolved with a response or rejected
with an error. -/
inductive PromiseResult where
  | resolved (response : AxiosResponse)
  | rejected (error : AxiosError)
deriving DecidableEq

/-- Everything observable about one `onRejected` run: the settled promise,
the final module state, how many times the auth-check and logout actions
were dispatched, and the navigation targets assigned to
`window.location.href`. -/
structure RunResult where
  result : PromiseResult
  state : ModuleState
  checkAuthDispatches : Nat
  logoutDispatches : Nat
  navigations : List String
deriving DecidableEq

/-- The three early-return checks of `onRejected` (lines 57, 62, 67 of the
source): not a 401, the auth-check endpoint itself, or a verification
already in flight each re-signal the error at once; otherwise the run
enters the guarded section. -/
inductive GuardDecision where
  | pass
  | enter
deriving DecidableEq

/-- The synchronous prefix of `onRejected`, up to (not including) setting
the guard: decides between immediate pass-through and entering the
guarded verification section. No suspension point occurs before this
decision completes. -/
def guardCheck (config : AuthInterceptorConfig) (st : ModuleState)
    (error : AxiosError) : GuardDecision :=
  if (error.response.map AxiosResponse.status) != some 401 then .pass
  else if urlMatchesPattern error.config config.patternValue then .pass
  else if st.isCheckingAuth then .pass
  else .enter

/-- The guarded section of `onRejected` (lines 71–105): set
`isCheckingAuth := true`, await the auth-check dispatch, branch on its
outcome, on a confirmed 401 dispatch logout and navigate unless already at
the login path, catch any throw, and reset the guard in `finally` before
re-signalling the original error. -/
def verificationSection (config : AuthInterceptorConfig) (env : Env)
    (error : AxiosError) : RunResult :=
  match env.checkAuth with
  | .throws =>
    ⟨.rejected error, ⟨false⟩, 1, 0, []⟩
  | .fulfilled =>
    ⟨.rejected error, ⟨false⟩, 1, 0, []⟩
  | .unmatched =>
    ⟨.rejected error, ⟨false⟩, 1, 0, []⟩
  | .rejectedWith payload =>
    if ((payload.bind RejectedPayload.error).bind PayloadErrorInfo.statusCode)
        = some 401 then
      if env.logoutThrows then
        ⟨.rejected error, ⟨false⟩, 1, 1, []⟩
      else
        match env.window with
        | some pathname =>
          if pathname != config.loginPathValue then
            ⟨.rejected error, ⟨false⟩, 1, 1, [config.loginPathValue]⟩
          else
            ⟨.rejected error, ⟨false⟩, 1, 1, []⟩
        | none =>
          ⟨.rejected error, ⟨false⟩, 1, 1, []⟩
    else
      ⟨.rejected error, ⟨false⟩, 1, 0, []⟩

/-- Embedding of `createAuthInterceptor(config).onRejected`. -/
def onRejected (config : AuthInterceptorConfig) (env : Env)
    (st : ModuleState) (error : AxiosError) : RunResult :=
  match guardCheck config st error with
  | .pass => ⟨.rejected error, st, 0, 0, []⟩
  | .enter => verificationSection config env error

/-- Embedding of `createAuthInterceptor(config).onFulfilled`: the identity
on responses. -/
def onFulfilled (response : AxiosResponse) : AxiosResponse :=
  response

/-- Embedding of `createAuthInterceptorLegacy().onRejected`: the same
three early checks against the fixed `/me/check` pattern and the same
shared flag, but the guarded section only logs a deprecation warning
before the `finally` resets the guard; no dispatch ever occurs. -/
def legacyOnRejected (st : ModuleState) (error : AxiosError) : RunResult :=
  if (error.response.map AxiosResponse.status) != some 401 then
    ⟨.rejected error, st, 0, 0, []⟩
  else if urlMatchesPattern error.config "/me/check" then
    ⟨.rejected error, st, 0, 0, []⟩
  else if st.isCheckingAuth then
    ⟨.rejected error, st, 0, 0, []⟩
  else
    ⟨.rejected error, ⟨false⟩, 0, 0, []⟩

/-- One arrival of a burst: the synchronous prefix of an `onRejected`
invocation run against the shared state while an earlier verification is
still awaiting its dispatch. A passing arrival leaves the state alone and
dispatches nothing; an entering arrival sets the shared flag and issues
its auth-check dispatch before suspending. -/
def burstArrive (arrival : AuthInterceptorConfig × AxiosError)
    (st : ModuleState) : ModuleState × Nat :=
  match guardCheck arrival.1 st arrival.2 with
  | .pass => (st, 0)
  | .enter => (⟨true⟩, 1)

/-- Total number of auth-check dispatches issued by a burst of failures
arriving one after another (in program order) while no verification in
the burst has yet settled. Each arrival may come from a different
interceptor instance with its own configuration; all share the state. -/
def burstDispatches : List (AuthInterceptorConfig × AxiosError) →
    ModuleState → Nat
  | [], _ => 0
  | a :: rest, st =>
    let step := burstArrive a st
    step.2 + burstDispatches rest step.1

/-- A configuration relying on both source defaults. -/
def sampleConfig : AuthInterceptorConfig := ⟨none, none⟩

/-- A plain 401 failure on an application endpoint. -/
def sampleError : AxiosError := ⟨some ⟨401⟩, some ⟨some "/api/users"⟩⟩

/-- A 500 failure on an application endpoint. -/
def sampleServerError : AxiosError := ⟨some ⟨500⟩, some ⟨some "/api/users"⟩⟩

/-- A 401 failure on the auth-check endpoint itself. -/
def sampleCheckError : AxiosError := ⟨some ⟨401⟩, some ⟨some "/me/check"⟩⟩

/-- An environment whose auth-check dispatch reports a still-valid
session, in a browser at `/dashboard`. -/
def sampleValidEnv : Env := ⟨some "/dashboard", .fulfilled, false⟩

/-- An environment whose auth-check dispatch is rejected with a 401
payload, in a browser at `/dashboard`. -/
def sampleInvalidEnv : Env :=
  ⟨some "/dashboard", .rejectedWith (some ⟨some ⟨some 401⟩⟩), false⟩

end AuthInterceptor

namespace ErrorHandler

/-- The 422 validation body of the spec's worked example:
`{message: "Validation failed", errors: {email: ["required"]}}` (the
array modelled as an indexed object). -/
def body422 : JsValue :=
  .obj [("message", .str "Validation failed"),
        ("errors", .obj [("email", .obj [("0", .str "required")])])]

/-- The spec's worked transport failure: status 422 with `body422`. -/
def axios422 : JsInput :=
  .axiosError "Request failed with status code 422" (some ⟨422, body422⟩)

end ErrorHandler

namespace AuthInterceptor

/-- With the shared flag raised, the synchronous prefix always decides to
pass the failure through. -/
theorem guardCheck_checking (config : AuthInterceptorConfig)
    (error : AxiosError) : guardCheck config ⟨true⟩ error = .pass := by
  unfold guardCheck
  split
  · rfl
  · split
    · rfl
    · rfl

/-- A non-401 failure, or one targeting the auth-check endpoint, always
decides to pass through, whatever the shared state. -/
theorem guardCheck_pass_of_nonqualifying (config : AuthInterceptorConfig)
    (st : ModuleState) (error : AxiosError)
    (h : error.response.map AxiosResponse.status ≠ some 401 ∨
         urlMatchesPattern error.config config.patternValue = true) :
    guardCheck config st error = .pass := by
  unfold guardCheck
  rcases h with h | h
  · rw [if_pos]
    simpa using h
  · split
    · rfl
    · simp [h]

/-- `onRejected` on a passing decision is the immediate re-rejection. -/
theorem onRejected_pass (config : AuthInterceptorConfig) (env : Env)
    (st : ModuleState) (error : AxiosError)
    (h : guardCheck config st error = .pass) :
    onRejected config env st error = ⟨.rejected error, st, 0, 0, []⟩ := by
  unfold onRejected
  rw [h]

/-- `onRejected` on an entering decision runs the guarded section. -/
theorem onRejected_enter (config : AuthInterceptorConfig) (env : Env)
    (st : ModuleState) (error : AxiosError)
    (h : guardCheck config st error = .enter) :
    onRejected config env st error = verificationSection config env error := by
  unfold onRejected
  rw [h]

/-- Whatever the environment does, the guarded section re-rejects the
original error, leaves the flag lowered and dispatched the auth check
exactly once. -/
theorem verificationSection_spec (config : AuthInterceptorConfig) (env : Env)
    (error : AxiosError) :
    (verificationSection config env error).result = .rejected error ∧
    (verificationSection config env error).state = ⟨false⟩ ∧
    (verificationSection config env error).checkAuthDispatches = 1 := by
  rcases env with ⟨w, ca, lt⟩
  unfold verificationSection
  cases ca <;> dsimp
  case fulfilled => exact ⟨rfl, rfl, rfl⟩
  case unmatched => exact ⟨rfl, rfl, rfl⟩
  case throws => exact ⟨rfl, rfl, rfl⟩
  case rejectedWith payload =>
    split
    · cases lt <;> dsimp
      · cases w <;> dsimp
        · exact ⟨rfl, rfl, rfl⟩
        · split
          · exact ⟨rfl, rfl, rfl⟩
          · exact ⟨rfl, rfl, rfl⟩
      · exact ⟨rfl, rfl, rfl⟩
    · exact ⟨rfl, rfl, rfl⟩

/-- A burst arriving with the flag already raised dispatches nothing. -/
theorem burstDispatches_checking
    (arrivals : List (AuthInterceptorConfig × AxiosError)) :
    burstDispatches arrivals ⟨true⟩ = 0 := by
  induction arrivals with
  | nil => rfl
  | cons a rest ih =>
    unfold burstDispatches burstArrive
    rw [guardCheck_checking]
    simpa using ih

/-- A burst arriving with the flag lowered dispatches at most once. -/
theorem burstDispatches_idle_le_one
    (arrivals : List (AuthInterceptorConfig × AxiosError)) :
    burstDispatches arrivals ⟨false⟩ ≤ 1 := by
  induction arrivals with
  | nil => exact Nat.zero_le 1
  | cons a rest ih =>
    unfold burstDispatches burstArrive
    cases h : guardCheck a.1 ⟨false⟩ a.2 <;> dsimp
    · simpa using ih
    · simp [burstDispatches_checking]

end AuthInterceptor

namespace AuthInterceptor

/-- Claim C1: mutual exclusion of the verification guard. While
`isCheckingAuth` is true, every 401 failure is rejected immediately with
the original error, dispatching nothing and leaving the shared state
untouched; consequently a burst of concurrent 401 failures starting from
an idle guard issues at most one auth-check dispatch in total, whatever
configurations the failing exchanges were handled under. -/
theorem c1_at_most_one_verification :
    (∀ (config : AuthInterceptorConfig) (env : Env) (error : AxiosError),
      error.response.map AxiosResponse.status = some 401 →
      onRejected config env ⟨true⟩ error =
        ⟨.rejected error, ⟨true⟩, 0, 0, []⟩) ∧
    (∀ arrivals : List (AuthInterceptorConfig × AxiosError),
      burstDispatches arrivals ⟨false⟩ ≤ 1) := by
  constructor
  · intro config env error _
    exact onRejected_pass config env ⟨true⟩ error
      (guardCheck_checking config error)
  · exact burstDispatches_idle_le_one

/-- Witness for C1: a 401 arriving mid-verification is skipped, and a
three-failure burst dispatches at most once. -/
theorem c1_at_most_one_verification_witness :
    onRejected sampleConfig sampleValidEnv ⟨true⟩ sampleError =
      ⟨.rejected sampleError, ⟨true⟩, 0, 0, []⟩ ∧
    burstDispatches [(sampleConfig, sampleError), (sampleConfig, sampleError),
      (sampleConfig, sampleError)] ⟨false⟩ ≤ 1 :=
  ⟨c1_at_most_one_verification.1 sampleConfig sampleValidEnv sampleError rfl,
   c1_at_most_one_verification.2 _⟩

/-- Claim C2: from an idle guard, every `onRejected` run — whichever
verifier outcome occurs, the dispatch throwing included — returns with
`isCheckingAuth` lowered again, so a subsequent qualifying 401 failure
issues exactly one new auth-check dispatch. -/
theorem c2_guard_reset_every_outcome
    (config : AuthInterceptorConfig) (env env' : Env)
    (error error' : AxiosError) :
    (onRejected config env ⟨false⟩ error).state = ⟨false⟩ ∧
    (guardCheck config ⟨false⟩ error' = .enter →
      (onRejected config env' (onRejected config env ⟨false⟩ error).state
        error').checkAuthDispatches = 1) := by
  have hstate : (onRejected config env ⟨false⟩ error).state = ⟨false⟩ := by
    cases h : guardCheck config ⟨false⟩ error
    · rw [onRejected_pass config env ⟨false⟩ error h]
    · rw [onRejected_enter config env ⟨false⟩ error h]
      exact (verificationSection_spec config env error).2.1
  refine ⟨hstate, fun henter => ?_⟩
  rw [hstate, onRejected_enter config env' ⟨false⟩ error' henter]
  exact (verificationSection_spec config env' error').2.2

/-- Witness for C2: after a run whose auth check threw, the guard is down
and a fresh 401 triggers exactly one new dispatch. -/
theorem c2_guard_reset_every_outcome_witness :
    (onRejected sampleConfig ⟨some "/dashboard", .throws, false⟩ ⟨false⟩
      sampleError).state = ⟨false⟩ ∧
    (onRejected sampleConfig sampleInvalidEnv
      (onRejected sampleConfig ⟨some "/dashboard", .throws, false⟩ ⟨false⟩
        sampleError).state sampleError).checkAuthDispatches = 1 :=
  ⟨(c2_guard_reset_every_outcome sampleConfig ⟨some "/dashboard", .throws, false⟩
      sampleInvalidEnv sampleError sampleError).1,
   (c2_guard_reset_every_outcome sampleConfig ⟨some "/dashboard", .throws, false⟩
      sampleInvalidEnv sampleError sampleError).2 rfl⟩

/-- Claim C3: additive-only propagation. For every configuration, shared
state, input error and verifier behaviour, `onRejected` settles as a
rejection carrying exactly the original error — never a resolution, never
a replacement — and `onFulfilled` returns its response unchanged. -/
theorem c3_additive_only_propagation
    (config : AuthInterceptorConfig) (env : Env) (st : ModuleState)
    (error : AxiosError) (response : AxiosResponse) :
    (onRejected config env st error).result = .rejected error ∧
    onFulfilled response = response := by
  refine ⟨?_, rfl⟩
  cases h : guardCheck config st error
  · rw [onRejected_pass config env st error h]
  · rw [onRejected_enter config env st error h]
    exact (verificationSection_spec config env error).1

/-- Claim C4: confirmed-invalid outcome. With the guard free, a
qualifying 401, a browser window present and a teardown dispatch that
completes, an auth check rejected with payload `error.statusCode = 401`
dispatches logout exactly once and navigates to the configured login path
exactly once — skipped when already there — while still rejecting with
the original error; a rejected outcome whose payload status is not 401
dispatches no logout and performs no navigation. -/
theorem c4_confirmed_invalid_teardown
    (config : AuthInterceptorConfig) (error : AxiosError)
    (payload : Option RejectedPayload) (pathname : String)
    (henter : guardCheck config ⟨false⟩ error = .enter) :
    ((payload.bind RejectedPayload.error).bind PayloadErrorInfo.statusCode
        = some 401 →
      onRejected config ⟨some pathname, .rejectedWith payload, false⟩
          ⟨false⟩ error =
        ⟨.rejected error, ⟨false⟩, 1, 1,
          if pathname = config.loginPathValue then []
          else [config.loginPathValue]⟩) ∧
    ((payload.bind RejectedPayload.error).bind PayloadErrorInfo.statusCode
        ≠ some 401 →
      onRejected config ⟨some pathname, .rejectedWith payload, false⟩
          ⟨false⟩ error =
        ⟨.rejected error, ⟨false⟩, 1, 0, []⟩) := by
  constructor
  · intro h401
    rw [onRejected_enter _ _ _ _ henter]
    unfold verificationSection
    dsimp
    rw [if_pos h401]
    by_cases hp : pathname = config.loginPathValue <;> simp [hp]
  · intro hne
    rw [onRejected_enter _ _ _ _ henter]
    unfold verificationSection
    dsimp
    rw [if_neg hne]

/-- Witness for C4: at `/dashboard`, a 401-confirmed invalid session logs
out once and navigates to `/login`; a 500-reasoned rejection does
neither. -/
theorem c4_confirmed_invalid_teardown_witness :
    onRejected sampleConfig sampleInvalidEnv ⟨false⟩ sampleError =
      ⟨.rejected sampleError, ⟨false⟩, 1, 1, ["/login"]⟩ ∧
    onRejected sampleConfig
        ⟨some "/dashboard", .rejectedWith (some ⟨some ⟨some 500⟩⟩), false⟩
        ⟨false⟩ sampleError =
      ⟨.rejected sampleError, ⟨false⟩, 1, 0, []⟩ :=
  ⟨(c4_confirmed_invalid_teardown sampleConfig sampleError
      (some ⟨some ⟨some 401⟩⟩) "/dashboard" rfl).1 rfl,
   (c4_confirmed_invalid_teardown sampleConfig sampleError
      (some ⟨some ⟨some 500⟩⟩) "/dashboard" rfl).2 (by decide)⟩

/-- Claim C5: still-valid outcome. With the guard free and a qualifying
401, an auth check that fulfills dispatches no logout, performs no
navigation, resets the guard and rejects with the original error
unchanged. -/
theorem c5_still_valid_passthrough
    (config : AuthInterceptorConfig) (error : AxiosError)
    (window : Option String) (logoutBehaviour : Bool)
    (henter : guardCheck config ⟨false⟩ error = .enter) :
    onRejected config ⟨window, .fulfilled, logoutBehaviour⟩ ⟨false⟩ error =
      ⟨.rejected error, ⟨false⟩, 1, 0, []⟩ := by
  rw [onRejected_enter _ _ _ _ henter]
  exact rfl

/-- Witness for C5 at a concrete 401 with a fulfilled auth check. -/
theorem c5_still_valid_passthrough_witness :
    onRejected sampleConfig sampleValidEnv ⟨false⟩ sampleError =
      ⟨.rejected sampleError, ⟨false⟩, 1, 0, []⟩ :=
  c5_still_valid_passthrough sampleConfig sampleError (some "/dashboard")
    false rfl

/-- Claim C6: pass-through on non-qualifying failures. A failure whose
status is not 401, or a 401 whose request URL contains the configured
auth-check pattern, is re-rejected unchanged with no auth-check dispatch,
no logout, no navigation, and the shared guard exactly as it was. -/
theorem c6_nonqualifying_passthrough
    (config : AuthInterceptorConfig) (env : Env) (st : ModuleState)
    (error : AxiosError)
    (h : error.response.map AxiosResponse.status ≠ some 401 ∨
         urlMatchesPattern error.config config.patternValue = true) :
    onRejected config env st error = ⟨.rejected error, st, 0, 0, []⟩ :=
  onRejected_pass config env st error
    (guardCheck_pass_of_nonqualifying config st error h)

/-- Witness for C6: a 500 failure and a 401 on the auth-check endpoint
both pass through from an idle guard, which stays idle. -/
theorem c6_nonqualifying_passthrough_witness :
    onRejected sampleConfig sampleValidEnv ⟨false⟩ sampleServerError =
      ⟨.rejected sampleServerError, ⟨false⟩, 0, 0, []⟩ ∧
    onRejected sampleConfig sampleValidEnv ⟨false⟩ sampleCheckError =
      ⟨.rejected sampleCheckError, ⟨false⟩, 0, 0, []⟩ :=
  ⟨c6_nonqualifying_passthrough sampleConfig sampleValidEnv ⟨false⟩
      sampleServerError (Or.inl (by decide)),
   c6_nonqualifying_passthrough sampleConfig sampleValidEnv ⟨false⟩
      sampleCheckError (Or.inr (by decide))⟩

/-- Claim C10: the guard is one module-level flag shared by every
interceptor the module creates, the legacy one included. With the shared
state marking a verification in flight, a 401 handled under any other
configuration — or by the legacy handler — takes the skip branch:
no dispatch of its own, state untouched, original error re-signalled. -/
theorem c10_shared_module_guard
    (config : AuthInterceptorConfig) (env : Env) (error : AxiosError)
    (_h401 : error.response.map AxiosResponse.status = some 401) :
    onRejected config env ⟨true⟩ error =
      ⟨.rejected error, ⟨true⟩, 0, 0, []⟩ ∧
    legacyOnRejected ⟨true⟩ error = ⟨.rejected error, ⟨true⟩, 0, 0, []⟩ := by
  refine ⟨onRejected_pass config env ⟨true⟩ error
    (guardCheck_checking config error), ?_⟩
  unfold legacyOnRejected
  split
  · rfl
  · split
    · rfl
    · rfl

/-- Witness for C10: an instance with a completely different
configuration, and the legacy handler, both skip while the shared flag is
up. -/
theorem c10_shared_module_guard_witness :
    onRejected ⟨some "/auth/check", some "/signin"⟩ sampleValidEnv ⟨true⟩
        sampleError = ⟨.rejected sampleError, ⟨true⟩, 0, 0, []⟩ ∧
    legacyOnRejected ⟨true⟩ sampleError =
      ⟨.rejected sampleError, ⟨true⟩, 0, 0, []⟩ :=
  c10_shared_module_guard ⟨some "/auth/check", some "/signin"⟩ sampleValidEnv
    sampleError rfl

end AuthInterceptor

namespace ErrorHandler

/-- Claim C7: totality of the classifier. `processStoreError` is a total
function returning a record on every input — here witnessed by its being
defined on the whole input type and preserving each input as
`originalError` — and on `null`, `undefined`, the empty string and the
empty object it returns status 0, the generic fallback message and no
data payload. -/
theorem c7_classifier_totality :
    (∀ e : JsInput, (processStoreError e).originalError = e) ∧
    processStoreError (.value .null) =
      ⟨0, genericMessage, .undefined, false, .value .null⟩ ∧
    processStoreError (.value .undefined) =
      ⟨0, genericMessage, .undefined, false, .value .undefined⟩ ∧
    processStoreError (.value (.str "")) =
      ⟨0, genericMessage, .undefined, false, .value (.str "")⟩ ∧
    processStoreError (.value (.obj [])) =
      ⟨0, genericMessage, .undefined, false, .value (.obj [])⟩ := by
  refine ⟨?_, rfl, rfl, rfl, rfl⟩
  intro e
  cases e with
  | axiosError msg response => rfl
  | jsError msg => rfl
  | value v =>
    cases v with
    | null => rfl
    | undefined => rfl
    | bool b => rfl
    | num n => rfl
    | str s =>
      by_cases h : jsTrim s = "" <;> simp [processStoreError, h]
    | obj fields => rfl

/-- Claim C8: classification of a transport failure carrying a response.
When the body's embedded `message` field is absent or a string, the
record's status is the response's status code, its data the response
body, and its message follows the fallback chain — the body's message
when present and non-empty, else the failure's own message when
non-empty, else the server-communication fallback. The spec's 422
validation example instantiates it. -/
theorem c8_axios_response_classification (msg : String)
    (r : AxiosResponseData)
    (h : r.data.getProp "message" = .undefined ∨
         ∃ s : String, r.data.getProp "message" = .str s) :
    ((processStoreError (.axiosError msg (some r))).statusCode = r.status ∧
     (processStoreError (.axiosError msg (some r))).data = r.data ∧
     (processStoreError (.axiosError msg (some r))).isAxiosError = true ∧
     (processStoreError (.axiosError msg (some r))).message =
       (match r.data.getProp "message" with
        | .str s =>
          if s ≠ "" then .str s
          else if msg ≠ "" then .str msg else serverCommMessage
        | _ => if msg ≠ "" then .str msg else serverCommMessage)) ∧
    processStoreError axios422 =
      ⟨422, .str "Validation failed", body422, true, axios422⟩ := by
  refine ⟨⟨?_, rfl, rfl, ?_⟩, rfl⟩
  · show (if (JsValue.num r.status).truthy = true then r.status else 0) =
      r.status
    by_cases h0 : r.status = 0 <;> simp [JsValue.truthy, h0]
  · show jsOr (jsOr (r.data.getProp "message") (.str msg)) serverCommMessage
      = _
    rcases h with h | ⟨s, h⟩ <;> rw [h]
    · by_cases hm : msg = "" <;>
        simp [jsOr, JsValue.truthy, hm, serverCommMessage]
    · by_cases hs : s = ""
      · by_cases hm : msg = "" <;>
          simp [jsOr, JsValue.truthy, hs, hm, serverCommMessage]
      · simp [jsOr, JsValue.truthy, hs]

/-- Witness for C8: the spec's 422 validation example, with a body whose
`message` field is the string `Validation failed`. -/
theorem c8_axios_response_classification_witness :
    processStoreError axios422 =
      ⟨422, .str "Validation failed", body422, true, axios422⟩ :=
  (c8_axios_response_classification "Request failed with status code 422"
    ⟨422, body422⟩ (Or.inr ⟨"Validation failed", rfl⟩)).2

/-- Claim C9 counterexample: the whitespace string `" "` is non-empty,
yet `processStoreError` returns the generic fallback, not the string
itself, because the source tests `error.trim() !== ''` before using the
string. -/
theorem c9_whitespace_counterexample :
    (" " : String) ≠ "" ∧
    (processStoreError (.value (.str " "))).message = genericMessage ∧
    genericMessage ≠ .str " " := by
  refine ⟨by decide, rfl, fun h => ?_⟩
  unfold genericMessage at h
  injection h with h'
  exact absurd h' (by decide)

/-- Claim C9 amended: a plain string always classifies with status 0 and
no data; the message is the string itself exactly when its
whitespace-trim is non-empty, and the generic fallback otherwise. -/
theorem c9_plain_string_classification (s : String) :
    (processStoreError (.value (.str s))).statusCode = 0 ∧
    (processStoreError (.value (.str s))).data = .undefined ∧
    (processStoreError (.value (.str s))).message =
      (if jsTrim s ≠ "" then .str s else genericMessage) := by
  by_cases h : jsTrim s = "" <;> simp [processStoreError, h]

end ErrorHandler
